import Mathlib

/-!
# Verification of the WikidataTextEmbedding dump-processing pipeline

A shallow embedding of the parts of the repository that the specification's
claims are about:

* `src/src/wikidataDB.py` — the IdStore (`WikidataID`) with its monotone-OR
  bulk upsert, `is_in_wikipedia`, `extract_entity_ids`, and the LangStore
  claim cleaning (`WikidataEntity._get_claims`).
* `src/src/wikidataEmbed.py` — the textifier (`WikidataTextifier`):
  `mainsnak_to_value`, `qualifiers_to_text`, `properties_to_text`,
  `time_to_text`, `quantity_to_text`, `entity_to_text`, and `chunk_text`.
* `src/docker/1_Data_Processing_save_ids/run.py` and
  `src/docker/2_Data_Processing_save_entities/run.py` — the stage A / stage B
  handlers.
* `src/src/wikidataRetriever.py` and `src/src/wikidataCache.py` —
  `AstraDBConnect.push_batch`, `add_document`, and the embedding cache
  (`add_bulk_cache` / `get_cache`, including the `EmbeddingType` bind and
  result processors).

Python strings are modelled by `String` with character-index slicing,
dictionaries by association lists that preserve insertion order, `None` by
`Option`, and SQL tables by functions from keys to optional rows.  A Python
exception escaping a modelled function is rendered as `none` (each such spot
is noted at the definition).
-/

namespace Wikidata

/-! ## IdStore (`wikidataDB.WikidataID`) -/

/-- One row of the `wikidataID` table (primary key `id`, two boolean flags),
as produced by `WikidataID.extract_entity_ids`. -/
structure IdRow where
  id : String
  in_wikipedia : Bool
  is_property : Bool
deriving DecidableEq, Repr

/-- The stored flags of the `wikidataID` table for one id. -/
structure IdRec where
  in_wikipedia : Bool
  is_property : Bool
deriving DecidableEq, Repr

/-- The `wikidataID` table: a map from id to its stored flags. -/
abbrev IdMap := String → Option IdRec

def emptyIdMap : IdMap := fun _ => none

/-- One row of the `INSERT ... ON CONFLICT(id) DO UPDATE` statement executed
by `WikidataID.add_bulk_ids`: a fresh id is inserted with the row's flags;
on conflict each flag is set to the excluded (new) value when that value is
`TRUE` and kept otherwise, i.e. to the OR of old and new. -/
def upsertId (m : IdMap) (r : IdRow) : IdMap := fun k =>
  if k = r.id then
    match m r.id with
    | none => some ⟨r.in_wikipedia, r.is_property⟩
    | some old => some ⟨old.in_wikipedia || r.in_wikipedia,
                        old.is_property || r.is_property⟩
  else m k

/-- `WikidataID.add_bulk_ids`: the parameter rows are applied in order by the
single SQL statement. -/
def add_bulk_ids (m : IdMap) (rows : List IdRow) : IdMap :=
  rows.foldl upsertId m

/-- A sequence of `add_bulk_ids` calls, applied in order. -/
def add_bulk_ids_seq (m : IdMap) (batches : List (List IdRow)) : IdMap :=
  batches.foldl add_bulk_ids m

/-! ## Snaks and claims

The JSON `datavalue.value` shapes actually read by the code: entity-id
references (`value.id`), monolingual text (`value.language` / `value.text`),
plain strings, time records (`value.time` / `value.precision` /
`value.calendarmodel`) and quantities (`value.amount` / `value.unit`, the
`unit` key possibly absent). -/

inductive DataValue where
  | entityid (id : String)
  | mono (language : String) (text : String)
  | str (s : String)
  | time (time : String) (precision : Int) (calendarmodel : String)
  | quantity (amount : String) (unit : Option String)
deriving DecidableEq, Repr

/-- A snak: `snaktype`, `datatype` and an optional `datavalue` (the key may be
absent from the JSON object). -/
structure Snak where
  snaktype : String
  datatype : String
  datavalue : Option DataValue
deriving DecidableEq, Repr

/-- A claim as stored in the LangStore by `WikidataEntity._get_claims`:
`mainsnak`, `qualifiers` (property id to ordered snak list, insertion order
kept) and `rank`. -/
structure Claim where
  mainsnak : Snak
  qualifiers : List (String × List Snak)
  rank : String
deriving DecidableEq, Repr

/-- A raw statement of the dump, before cleaning: the `type` key, the rank,
an optional `mainsnak` and the qualifiers. -/
structure DumpClaim where
  ctype : String
  rank : String
  mainsnak : Option Snak
  qualifiers : List (String × List Snak)
deriving DecidableEq, Repr

/-- A dump entity, restricted to the keys the pipeline reads.  `labels`,
`descriptions` and `aliases` are key-value maps (insertion order kept);
`sitelinks` is `none` when the key is absent from the JSON object (the code
tests `'sitelinks' in item`), and otherwise the list of site keys. -/
structure DumpItem where
  id : String
  labels : List (String × String)
  descriptions : List (String × String)
  aliases : List (String × List String)
  sitelinks : Option (List String)
  claims : List (String × List DumpClaim)
deriving DecidableEq, Repr

/-- Key lookup in an insertion-ordered map (first binding wins, as in a
Python dict where keys are unique). -/
def alistFind (m : List (String × α)) (k : String) : Option α :=
  (m.find? (fun p => p.1 = k)).map (·.2)

/-- `k in m` on a Python dict. -/
def alistMem (m : List (String × α)) (k : String) : Bool :=
  (alistFind m k).isSome

/-- `WikidataID.is_in_wikipedia`: the item has a `<language>wiki` sitelink,
and a label and a description in `<language>` or in `mul`. -/
def is_in_wikipedia (item : DumpItem) (language : String) : Bool :=
  (match item.sitelinks with
   | none => false
   | some sl => sl.contains (language ++ "wiki"))
  && (alistMem item.labels language || alistMem item.labels "mul")
  && (alistMem item.descriptions language || alistMem item.descriptions "mul")

/-- `unit.rsplit('/', 1)[1]` / `unit.rsplit('/')[-1]`: the part after the
last `/`.  (For a unit string with no `/` the `maxsplit=1` variant in
`extract_entity_ids` raises `IndexError`; unit values are URLs, so the two
variants agree on every input that occurs.) -/
def lastSlashComponent (u : String) : String :=
  (u.splitOn "/").getLastD ""

/-- The id rows contributed by one mainsnak (or qualifier snak) in
`WikidataID.extract_entity_ids`: entered only when the snak has a
`datavalue`; an id row for `wikibase-item` and `wikibase-property` values and
for non-unity quantity units.  (Where Python would raise `KeyError` on a
datavalue whose shape does not match its datatype, no row is produced.) -/
def snakIdRows (s : Snak) : List IdRow :=
  match s.datavalue with
  | none => []
  | some dv =>
    if s.datatype = "wikibase-item" then
      match dv with
      | .entityid id => [⟨id, false, false⟩]
      | _ => []
    else if s.datatype = "wikibase-property" then
      match dv with
      | .entityid id => [⟨id, false, true⟩]
      | _ => []
    else if s.datatype = "quantity" then
      match dv with
      | .quantity _ unit =>
        if unit.getD "1" ≠ "1" then
          [⟨lastSlashComponent (unit.getD "1"), false, false⟩]
        else []
      | _ => []
    else []

/-- `WikidataID.extract_entity_ids`: one row for the item itself (with the
`is_in_wikipedia` flag), then, per claim list: a property row for the claim's
pid, rows for ids in each mainsnak, a property row for each qualifier pid and
rows for ids in each qualifier snak, in source order. -/
def extract_entity_ids (item : DumpItem) (language : String) : List IdRow :=
  ⟨item.id, is_in_wikipedia item language, false⟩ ::
  item.claims.flatMap (fun pc =>
    ⟨pc.1, false, true⟩ ::
    pc.2.flatMap (fun c =>
      (match c.mainsnak with
       | none => []
       | some ms => snakIdRows ms) ++
      c.qualifiers.flatMap (fun q =>
        ⟨q.1, false, true⟩ :: q.2.flatMap snakIdRows)))

/-- The stage A handler `save_ids_to_sqlite` of
`docker/1_Data_Processing_save_ids/run.py`, as the list of id rows it
appends to the shared batch for one parsed item: nothing unless
`is_in_wikipedia` holds, otherwise `extract_entity_ids`.  (Batch slicing and
the retry loop only group the rows; `add_bulk_ids` receives them in order.) -/
def save_ids_rows (item : DumpItem) (language : String) : List IdRow :=
  if is_in_wikipedia item language then extract_entity_ids item language
  else []

/-- The guard of the stage B handler `save_entities_to_sqlite` of
`docker/2_Data_Processing_save_entities/run.py`: the item is normalised and
appended to the LangStore batch iff `WikidataID.get_id(item['id'])` returns
a row (any row object is truthy). -/
def stage_b_inserts (m : IdMap) (item : DumpItem) : Bool :=
  (m item.id).isSome

/-- `WikidataEntity._remove_keys` strips only the bookkeeping keys `hash`,
`property`, `numeric-id` and `qualifiers-order`, none of which is part of
this model of a snak, so the cleaning of a present mainsnak is the identity
here; an absent mainsnak becomes the empty dict `{}`, whose
`.get('snaktype', '')` is `''`. -/
def cleanMainsnak (ms : Option Snak) : Snak :=
  match ms with
  | some s => s
  | none => ⟨"", "", none⟩

/-- `WikidataEntity._get_claims`: keep only statements of `type` `statement`
whose rank is not `deprecated`; keep a pid only when at least one statement
survived. -/
def get_claims (item : DumpItem) : List (String × List Claim) :=
  item.claims.filterMap (fun pc =>
    let pid_claims := pc.2.filterMap (fun c =>
      if c.ctype = "statement" ∧ c.rank ≠ "deprecated" then
        some ⟨cleanMainsnak c.mainsnak, c.qualifiers, c.rank⟩
      else none)
    if pid_claims.length > 0 then some (pc.1, pid_claims) else none)

/-! ## Proleptic Gregorian date arithmetic

`time_to_text` uses CPython's `datetime.date(y, m, d)`, `date.toordinal` and
`date.fromordinal`; these are the corresponding rata-die computations from
CPython's `datetime` module. -/

/-- `_DAYS_IN_MONTH` (index 0 unused). -/
def DAYS_IN_MONTH : List Nat := [0, 31, 28, 31, 30, 31, 30, 31, 31, 30, 31, 30, 31]

/-- `_DAYS_BEFORE_MONTH` (index 0 unused): cumulative days before each month
of a non-leap year. -/
def DAYS_BEFORE_MONTH : List Nat :=
  [0, 0, 31, 59, 90, 120, 151, 181, 212, 243, 273, 304, 334]

/-- `_is_leap`. -/
def isLeapYear (y : Nat) : Bool :=
  y % 4 = 0 && (y % 100 ≠ 0 || y % 400 = 0)

/-- `_days_in_month` (valid for `1 ≤ m ≤ 12`). -/
def daysInMonth (y m : Nat) : Nat :=
  if m = 2 && isLeapYear y then 29 else DAYS_IN_MONTH.getD m 0

/-- `_days_before_year`. -/
def daysBeforeYear (y : Nat) : Nat :=
  (y - 1) * 365 + (y - 1) / 4 - (y - 1) / 100 + (y - 1) / 400

/-- `_days_before_month`. -/
def daysBeforeMonth (y m : Nat) : Nat :=
  DAYS_BEFORE_MONTH.getD m 0 + (if m > 2 && isLeapYear y then 1 else 0)

/-- `date(y, m, d).toordinal()`. -/
def ymd2ord (y m d : Nat) : Nat :=
  daysBeforeYear y + daysBeforeMonth y m + d

/-- The validity check performed by the `datetime.date` constructor
(`MINYEAR = 1`, `MAXYEAR = 9999`); an invalid triple raises `ValueError`. -/
def validDate (y m d : Nat) : Bool :=
  1 ≤ y && y ≤ 9999 && 1 ≤ m && m ≤ 12 && 1 ≤ d && d ≤ daysInMonth y m

/-- `date.fromordinal` (`_ord2ymd`): invert the rata-die ordinal through the
400 / 100 / 4 / 1 year cycles. -/
def ord2ymd (ordinal : Nat) : Nat × Nat × Nat :=
  let n := ordinal - 1
  let n400 := n / 146097
  let n := n % 146097
  let year0 := n400 * 400 + 1
  let n100 := n / 36524
  let n := n % 36524
  let n4 := n / 1461
  let n := n % 1461
  let n1 := n / 365
  let n := n % 365
  let year := year0 + n100 * 100 + n4 * 4 + n1
  if n1 = 4 || n100 = 4 then (year - 1, 12, 31)
  else
    let leap := n1 = 3 && (n4 ≠ 24 || n100 = 3)
    let month := (n + 50) >>> 5
    let preceding := DAYS_BEFORE_MONTH.getD month 0 +
      (if month > 2 && leap then 1 else 0)
    if n < preceding then
      let month2 := month - 1
      let preceding2 := preceding -
        (DAYS_IN_MONTH.getD month2 0 + (if month2 = 2 && leap then 1 else 0))
      (year, month2, n - preceding2 + 1)
    else (year, month, n - preceding + 1)

/-! ## The time-string parser of `time_to_text`

The regex `([+-])(\d{1,16})-(\d{2})-(\d{2})T(\d{2}):(\d{2}):(\d{2})Z`
applied with `re.match` (anchored at the start; a trailing remainder is
accepted by `re.match`, but Wikidata time strings end at the `Z`). -/

/-- The seven captured groups: sign and the six zero-padded number fields,
kept as strings exactly as captured. -/
structure TimeGroups where
  sign : Char
  year_str : String
  month_str : String
  day_str : String
  hour_str : String
  minute_str : String
  second_str : String
deriving DecidableEq, Repr

/-- Split a leading run of decimal digits. -/
def spanDigits : List Char → List Char × List Char
  | [] => ([], [])
  | c :: cs =>
    if c.isDigit then
      let p := spanDigits cs
      (c :: p.1, p.2)
    else ([], c :: cs)

/-- Match exactly two digits. -/
def twoDigits : List Char → Option (String × List Char)
  | a :: b :: rest =>
    if a.isDigit && b.isDigit then some (String.mk [a, b], rest) else none
  | _ => none

/-- Expect a literal character. -/
def expectChar (c : Char) : List Char → Option (List Char)
  | d :: rest => if d = c then some rest else none
  | [] => none

/-- The anchored regex match; `none` when the pattern fails, in which case
`time_to_text` raises `ValueError("Malformed time string")`. -/
def parseTime (s : String) : Option TimeGroups :=
  match s.toList with
  | [] => none
  | c :: rest =>
    if c = '+' ∨ c = '-' then
      let p := spanDigits rest
      if 1 ≤ p.1.length ∧ p.1.length ≤ 16 then
        match expectChar '-' p.2 with
        | none => none
        | some r1 =>
          match twoDigits r1 with
          | none => none
          | some (mo, r2) =>
            match expectChar '-' r2 with
            | none => none
            | some r3 =>
              match twoDigits r3 with
              | none => none
              | some (da, r4) =>
                match expectChar 'T' r4 with
                | none => none
                | some r5 =>
                  match twoDigits r5 with
                  | none => none
                  | some (ho, r6) =>
                    match expectChar ':' r6 with
                    | none => none
                    | some r7 =>
                      match twoDigits r7 with
                      | none => none
                      | some (mi, r8) =>
                        match expectChar ':' r8 with
                        | none => none
                        | some r9 =>
                          match twoDigits r9 with
                          | none => none
                          | some (se, r10) =>
                            match expectChar 'Z' r10 with
                            | none => none
                            | some _ =>
                              some ⟨c, String.mk p.1, mo, da, ho, mi, se⟩
      else none
    else none

/-- `int` on a captured digit string. -/
def digitsToNat (s : String) : Nat :=
  s.toList.foldl (fun acc c => acc * 10 + (c.toNat - '0'.toNat)) 0

/-- `sub in s` on Python strings: `pat` occurs contiguously in `hay`. -/
def containsSub (hay pat : List Char) : Bool :=
  match hay with
  | [] => pat.isEmpty
  | _ :: t => pat.isPrefixOf hay || containsSub t pat

/-- `sub in s` lifted to `String`. -/
def strContains (hay pat : String) : Bool :=
  containsSub hay.toList pat.toList

/-! ## The textifier (`wikidataEmbed.WikidataTextifier`) -/

/-- One entry of `WikidataTextifier.lang_values`: months, era suffixes,
period phrases, the no-value phrase and the joiners. -/
structure LangPack where
  months : List String
  century : String
  millennium : String
  decade : String
  ad : String
  bc : String
  years : String
  tenThousandYears : String
  hundredThousandYears : String
  millionYears : String
  tensOfMillionsYears : String
  hundredMillionYears : String
  billionYears : String
  novalue : String
  comma : String
  lquote : String
  rquote : String
  lparen : String
  rparen : String
  semicolon : String
deriving DecidableEq, Repr

/-- `lang_values['en']`. -/
def enLang : LangPack where
  months := ["Jan", "Feb", "Mar", "Apr", "May", "Jun",
             "Jul", "Aug", "Sep", "Oct", "Nov", "Dec"]
  century := "th century"
  millennium := "th millennium"
  decade := "s"
  ad := "AD"
  bc := "BC"
  years := "years"
  tenThousandYears := "ten thousand years"
  hundredThousandYears := "hundred thousand years"
  millionYears := "million years"
  tensOfMillionsYears := "tens of millions of years"
  hundredMillionYears := "hundred million years"
  billionYears := "billion years"
  novalue := "no value"
  comma := ","
  lquote := "\""
  rquote := "\""
  lparen := "("
  rparen := ")"
  semicolon := ";"

/-- `lang_values['de']`. -/
def deLang : LangPack where
  months := ["Jan", "Feb", "Mär", "Apr", "Mai", "Jun",
             "Jul", "Aug", "Sep", "Okt", "Nov", "Dez"]
  century := ". Jahrhundert"
  millennium := ". Jahrtausend"
  decade := "er Jahre"
  ad := "n. Chr."
  bc := "v. Chr."
  years := "Jahre"
  tenThousandYears := "Zehntausend Jahre"
  hundredThousandYears := "Hunderttausend Jahre"
  millionYears := "Millionen Jahre"
  tensOfMillionsYears := "Zehn Millionen Jahre"
  hundredMillionYears := "Hundert Millionen Jahre"
  billionYears := "Milliarden Jahre"
  novalue := "no Wert"
  comma := ","
  lquote := "„"
  rquote := "“"
  lparen := "("
  rparen := ")"
  semicolon := ";"

/-- `lang_values['ar']`. -/
def arLang : LangPack where
  months := ["كانون الثاني", "شباط", "آذار", "نيسان", "أيار", "حزيران",
             "تموز", "آب", "أيلول", "تشرين الأول", "تشرين الثاني", "كانون الأول"]
  century := "قرن"
  millennium := "ألفية"
  decade := "عقد"
  ad := "م"
  bc := "ق.م"
  years := "سنوات"
  tenThousandYears := "عشرة آلاف سنة"
  hundredThousandYears := "مئات آلاف السنين"
  millionYears := "ملايين السنين"
  tensOfMillionsYears := "عشرات الملايين من السنين"
  hundredMillionYears := "مئات الملايين من السنين"
  billionYears := "مليار سنة"
  novalue := "لا قيمة"
  comma := "،"
  lquote := "«"
  rquote := "»"
  lparen := "("
  rparen := ")"
  semicolon := "؛"

/-- `self.lang_values` as a map from language code. -/
def lang_values (language : String) : Option LangPack :=
  if language = "en" then some enLang
  else if language = "de" then some deLang
  else if language = "ar" then some arLang
  else none

/-- One row of the LangStore (`WikidataEntity.get_entity` result), restricted
to the columns the textifier reads. -/
structure EntityRec where
  label : String
  description : String
  aliases : List String
deriving DecidableEq, Repr

/-- A `WikidataTextifier` instance together with the LangStore it queries
through the module-global `WikidataEntity.get_entity`.  The constructor
asserts that `language` is a key of `lang_values`, so `lang` is total here
(the default is never reached for a constructed instance). -/
structure Textifier where
  with_claim_desc : Bool
  with_claim_aliases : Bool
  with_property_desc : Bool
  with_property_aliases : Bool
  language : String
  store : String → Option EntityRec

/-- `self.lang`. -/
def Textifier.lang (tf : Textifier) : LangPack :=
  (lang_values tf.language).getD enLang

/-- `WikidataTextifier.time_to_text` over the fields of the time datavalue.
Returns `none` where Python raises (malformed time string, invalid Julian
date, month out of range, unknown precision): `mainsnak_to_value` catches
the exception and falls back to the raw `time` field.

The Julian test `len(str(abs(year))) <= 4` is rendered as
`year.natAbs ≤ 9999` (a decimal integer has at most four digits iff its
magnitude is below 10000).  `//` on Python ints is floor division, hence
`Int.fdiv`. -/
def time_to_text (lang : LangPack) (timeValue : String) (precision : Int)
    (calendarmodel : String) : Option String :=
  match parseTime timeValue with
  | none => none
  | some g =>
    let year0 : Int := (digitsToNat g.year_str : Int) * (if g.sign = '+' then 1 else -1)
    let ymdOpt : Option (Int × Nat × Nat) :=
      if strContains calendarmodel "Q1985786" ∧ year0 > 1 ∧ year0.natAbs ≤ 9999 then
        let month := if g.month_str = "00" then 1 else digitsToNat g.month_str
        let day := if g.day_str = "00" then 1 else digitsToNat g.day_str
        if validDate year0.toNat month day then
          let greg := ord2ymd (ymd2ord year0.toNat month day +
            (ymd2ord 1582 10 15 - ymd2ord 1582 10 5))
          some ((greg.1 : Int), greg.2.1, greg.2.2)
        else none
      else
        some (year0,
          (if g.month_str = "00" then 1 else digitsToNat g.month_str),
          (if g.day_str = "00" then 1 else digitsToNat g.day_str))
    match ymdOpt with
    | none => none
    | some (year, month, day) =>
      let monthNameOpt : Option String :=
        if month ≠ 0 then lang.months.get? (month - 1) else some ""
      match monthNameOpt with
      | none => none
      | some month_str =>
        if precision = 14 then
          some (toString year ++ " " ++ month_str ++ " " ++ toString day ++ " " ++
            g.hour_str ++ ":" ++ g.minute_str ++ ":" ++ g.second_str)
        else if precision = 13 then
          some (toString year ++ " " ++ month_str ++ " " ++ toString day ++ " " ++
            g.hour_str ++ ":" ++ g.minute_str)
        else if precision = 12 then
          some (toString year ++ " " ++ month_str ++ " " ++ toString day ++ " " ++
            g.hour_str ++ ":00")
        else if precision = 11 then
          some (toString day ++ " " ++ month_str ++ " " ++ toString year)
        else if precision = 10 then
          some (month_str ++ " " ++ toString year)
        else if precision = 9 then
          some (toString year.natAbs ++ (if year > 0 then "" else " " ++ lang.bc))
        else if precision = 8 then
          let decade := year.fdiv 10 * 10
          some (toString decade.natAbs ++ lang.decade ++ " " ++
            (if year > 0 then lang.ad else lang.bc))
        else if precision = 7 then
          let century := ((year.natAbs : Int) - 1).fdiv 100 + 1
          some (toString century ++ lang.century ++ " " ++
            (if year > 0 then lang.ad else lang.bc))
        else if precision = 6 then
          let millennium := ((year.natAbs : Int) - 1).fdiv 1000 + 1
          some (toString millennium ++ lang.millennium ++ " " ++
            (if year > 0 then lang.ad else lang.bc))
        else if precision = 5 then
          some (toString (year.natAbs / 10000) ++ " " ++ lang.tenThousandYears ++
            " " ++ (if year > 0 then lang.ad else lang.bc))
        else if precision = 4 then
          some (toString (year.natAbs / 100000) ++ " " ++ lang.hundredThousandYears ++
            " " ++ (if year > 0 then lang.ad else lang.bc))
        else if precision = 3 then
          some (toString (year.natAbs / 1000000) ++ " " ++ lang.millionYears ++
            " " ++ (if year > 0 then lang.ad else lang.bc))
        else if precision = 2 then
          some (toString (year.natAbs / 10000000) ++ " " ++ lang.tensOfMillionsYears ++
            " " ++ (if year > 0 then lang.ad else lang.bc))
        else if precision = 1 then
          some (toString (year.natAbs / 100000000) ++ " " ++ lang.hundredMillionYears ++
            " " ++ (if year > 0 then lang.ad else lang.bc))
        else if precision = 0 then
          some (toString (year.natAbs / 1000000000) ++ " " ++ lang.billionYears ++
            " " ++ (if year > 0 then lang.ad else lang.bc))
        else none

/-- `WikidataTextifier.quantity_to_text`: the amount, followed by the unit
when it is not `'1'`; a unit URL is resolved through the LangStore and falls
back to the raw URL when the lookup misses.  A missing `unit` key makes
Python raise `AttributeError` on `None.rsplit`, which `mainsnak_to_value`
catches, falling back to the bare amount — rendered here by returning just
the amount. -/
def quantity_to_text (store : String → Option EntityRec)
    (amount : String) (unit : Option String) : String :=
  match unit with
  | none => amount
  | some u =>
    if u = "1" then amount
    else
      let unit_qid := lastSlashComponent u
      let unitName := match store unit_qid with
        | some e => e.label
        | none => u
      amount ++ " " ++ unitName

/-- `WikidataTextifier.aliases_to_text`. -/
def aliases_to_text (tf : Textifier) (aliases : List String) : String :=
  if aliases.length = 0 then ""
  else if tf.language = "de" then
    ", auch bekannt als " ++ String.intercalate ", " aliases
  else if tf.language = "ar" then
    "، المعروف أيضًا باسم " ++ String.intercalate "، " aliases
  else ", also known as " ++ String.intercalate ", " aliases

/-- `WikidataTextifier.mainsnak_to_value`.  `none` is Python `None` (the
value, and with it the whole claim, is dropped); `some ""` is the empty
string (only this value is dropped).  Snaks whose `datavalue` shape does not
match their declared datatype make Python raise `KeyError` outside any
handler; they produce `none` here and occur for no snak of the dump. -/
def mainsnak_to_value (tf : Textifier) (mainsnak : Snak) : Option String :=
  if mainsnak.snaktype = "value" then
    if mainsnak.datatype = "wikibase-item" ∨ mainsnak.datatype = "wikibase-property" then
      match mainsnak.datavalue with
      | some (.entityid entity_id) =>
        match tf.store entity_id with
        | none => none
        | some entity =>
          let t := entity.label ++
            (if tf.with_claim_desc then tf.lang.comma ++ " " ++ entity.description
             else "")
          some (t ++
            (if tf.with_claim_aliases ∧ entity.aliases.length > 0 then
              aliases_to_text tf entity.aliases
             else ""))
      | _ => none
    else if mainsnak.datatype = "monolingualtext" then
      match mainsnak.datavalue with
      | some (.mono _ t) => some t
      | _ => none
    else if mainsnak.datatype = "string" then
      match mainsnak.datavalue with
      | some (.str s) => some s
      | _ => none
    else if mainsnak.datatype = "time" then
      match mainsnak.datavalue with
      | some (.time t precision calendarmodel) =>
        match time_to_text tf.lang t precision calendarmodel with
        | some s => some s
        | none => some t
      | _ => none
    else if mainsnak.datatype = "quantity" then
      match mainsnak.datavalue with
      | some (.quantity amount unit) => some (quantity_to_text tf.store amount unit)
      | _ => none
    else none
  else if mainsnak.snaktype = "novalue" then
    some tf.lang.novalue
  else none

/-- Python truthiness of an optional string (`if value:`): `None` and the
empty string are both falsy. -/
def truthy : Option String → Bool
  | none => false
  | some s => !s.isEmpty

/-- `WikidataTextifier.qualifiers_to_text`. -/
def qualifiers_to_text (tf : Textifier) (qualifiers : List (String × List Snak)) :
    String :=
  qualifiers.foldl (fun text pq =>
    let q_data := pq.2.filterMap (fun q =>
      let v := mainsnak_to_value tf q
      if truthy v then some (v.getD "") else none)
    if q_data.length > 0 then
      match tf.store pq.1 with
      | some property =>
        (if text.length > 0 then text ++ " " ++ tf.lang.semicolon ++ " " else text) ++
          property.label ++ ": " ++
          String.intercalate (tf.lang.comma ++ " ") q_data
      | none => text
    else text) ""

/-- The value string a claim contributes once selected: the snak value with
the parenthesised qualifier text appended when it is nonempty. -/
def claimValueText (tf : Textifier) (c : Claim) : String :=
  let v := (mainsnak_to_value tf c.mainsnak).getD ""
  let qualifiers := qualifiers_to_text tf c.qualifiers
  if qualifiers.length > 0 then
    v ++ " " ++ tf.lang.lparen ++ qualifiers ++ tf.lang.rparen
  else v

/-- `if value:` on the snak value of a claim. -/
def claimTruthy (tf : Textifier) (c : Claim) : Bool :=
  truthy (mainsnak_to_value tf c.mainsnak)

/-- `str.lower()`, character by character (rank strings are ASCII). -/
def lowerStr (s : String) : String :=
  String.mk (s.toList.map Char.toLower)

/-- `c.get('rank', 'normal').lower() == 'preferred'`. -/
def isPreferredRank (c : Claim) : Bool :=
  lowerStr c.rank == "preferred"

/-- One step of the `p_data` loop of `properties_to_text`: the state is the
`rank_preferred_found` flag and the accumulated values.  A claim whose value
is falsy contributes nothing; the first truthy `preferred` claim resets the
accumulation and sets the flag; once the flag holds, only `preferred` claims
are appended. -/
def pDataStep (tf : Textifier) (st : Bool × List String) (c : Claim) :
    Bool × List String :=
  if claimTruthy tf c then
    if !st.1 ∨ isPreferredRank c then
      if !st.1 ∧ isPreferredRank c then
        (true, [claimValueText tf c])
      else (st.1, st.2 ++ [claimValueText tf c])
    else st
  else st

/-- The `p_data` list computed by `properties_to_text` for one claim list.
(`c.get('rank', 'normal')` always finds the key on stored claims, and
`c.get('mainsnak', c)` always finds `mainsnak`.) -/
def pData (tf : Textifier) (claims : List Claim) : List String :=
  (claims.foldl (pDataStep tf) (false, [])).2

/-- The lines appended by one iteration of the property loop of
`properties_to_text`: nothing when `p_data` is empty or the property id does
not resolve in the LangStore; otherwise the property line (label, optional
description and aliases, and the quoted joined values). -/
def propertyLine (tf : Textifier) (pc : String × List Claim) : List String :=
  let p_data := pData tf pc.2
  if p_data.length > 0 then
    match tf.store pc.1 with
    | some property =>
      let t := "\n- " ++ property.label ++
        (if tf.with_property_desc then tf.lang.comma ++ " " ++ property.description
         else "") ++
        (if tf.with_property_aliases ∧ property.aliases.length > 0 then
          aliases_to_text tf property.aliases
         else "")
      let p_data_text :=
        if p_data.length > 1 then
          String.intercalate
            (tf.lang.rquote ++ tf.lang.comma ++ " \n " ++ tf.lang.lquote) p_data
        else p_data.headD ""
      [t ++ ": " ++ tf.lang.lquote ++ p_data_text ++ tf.lang.rquote]
    | none => []
  else []

/-- `WikidataTextifier.properties_to_text`: the property loop in insertion
order, appending `propertyLine` for each property. -/
def properties_to_text (tf : Textifier) (properties : List (String × List Claim)) :
    List String :=
  properties.foldl (fun acc pc => acc ++ propertyLine tf pc) []

/-- A LangStore row as handed to the textifier (a `WikidataEntity` object
with its JSON columns decoded). -/
structure Entity where
  id : String
  label : String
  description : String
  aliases : List String
  claims : List (String × List Claim)

/-- `WikidataTextifier.merge_entity_property_text`. -/
def merge_entity_property_text (tf : Textifier) (entity_description : String)
    (properties : List String) : String :=
  if properties.length > 0 then
    if tf.language = "de" then
      entity_description ++ ". Attribute umfassen: " ++ String.join properties
    else if tf.language = "ar" then
      entity_description ++ ". السمات تتضمن: " ++ String.join properties
    else
      entity_description ++ ". Attributes include: " ++ String.join properties
  else entity_description ++ "."

/-- The `entity_description` string built by `entity_to_text`: label, comma,
description, and the alias phrase when there are aliases. -/
def entityDescriptionText (tf : Textifier) (e : Entity) : String :=
  e.label ++ tf.lang.comma ++ " " ++ e.description ++
    (if e.aliases.length > 0 then aliases_to_text tf e.aliases else "")

/-- `WikidataTextifier.entity_to_text` (the `as_list=False` form). -/
def entity_to_text (tf : Textifier) (e : Entity) : String :=
  merge_entity_property_text tf (entityDescriptionText tf e)
    (properties_to_text tf e.claims)

/-! ## Chunking (`WikidataTextifier.chunk_text`)

A tokenizer is modelled by its offset mapping: the list of
`(start_char, end_char)` spans, one per token, so the token count
`len(tokens['input_ids'])` is the length of the list.  Out-of-range
`offsets[i]` indexing, which Python only performs where the branch
conditions make it impossible (or where it would raise `IndexError`, for a
tokenizer returning no tokens for a nonempty chunk tail), defaults to
`(0, 0)`. -/

abbrev Tokenizer := String → List (Nat × Nat)

/-- Python character slicing `s[a:b]` (for `0 ≤ a`, `0 ≤ b`). -/
def charSlice (s : String) (a b : Nat) : String :=
  ((s.toList.drop a).take (b - a)).asString

/-- `s[offsets[0][0] : offsets[max_length - 1][1]]`: the prefix covering the
first `max_length` tokens. -/
def truncChunk (tok : Tokenizer) (maxLen : Nat) (t : String) : String :=
  charSlice t ((tok t).getD 0 (0, 0)).1 ((tok t).getD (maxLen - 1) (0, 0)).2

/-- `s[offsets[0][0] : offsets[-1][1]]`: the span of all tokens. -/
def fullChunk (tok : Tokenizer) (t : String) : String :=
  charSlice t ((tok t).getD 0 (0, 0)).1 ((tok t).getD ((tok t).length - 1) (0, 0)).2

/-- The claim-accumulation loop of `chunk_text` followed by the final flush:
the first argument is the `chunk_claims` accumulator, the second the
remaining properties.  Crossing the budget emits the truncated text of
header plus accumulation plus current claim; the current claim then restarts
the accumulation unless it was alone.  The flush emits the tail, truncated
only if it overflows. -/
def chunkLoop (tf : Textifier) (tok : Tokenizer) (maxLen : Nat)
    (entity_description : String) :
    List String → List String → List String
  | chunk_claims, [] =>
    if chunk_claims.length > 0 then
      let t := merge_entity_property_text tf entity_description chunk_claims
      if maxLen ≤ (tok t).length then [truncChunk tok maxLen t]
      else [fullChunk tok t]
    else []
  | chunk_claims, claim :: rest =>
    let t := merge_entity_property_text tf entity_description (chunk_claims ++ [claim])
    if maxLen ≤ (tok t).length then
      truncChunk tok maxLen t ::
        chunkLoop tf tok maxLen entity_description
          (if chunk_claims.length = 0 then [] else [claim]) rest
    else chunkLoop tf tok maxLen entity_description (chunk_claims ++ [claim]) rest

/-- `WikidataTextifier.chunk_text`: one chunk when the full text is below the
budget; the truncated full text (sliced at the description's offsets) when
the description alone meets the budget; otherwise the greedy loop. -/
def chunk_text (tf : Textifier) (entity : Entity) (tok : Tokenizer)
    (maxLen : Nat) : List String :=
  let entity_description := entityDescriptionText tf entity
  let properties := properties_to_text tf entity.claims
  let entity_text := merge_entity_property_text tf entity_description properties
  if (tok entity_text).length < maxLen then [entity_text]
  else
    let offsets := tok entity_description
    if maxLen ≤ offsets.length then
      [charSlice entity_text (offsets.getD 0 (0, 0)).1
        (offsets.getD (maxLen - 1) (0, 0)).2]
    else chunkLoop tf tok maxLen entity_description [] properties

/-! ## BatchWriter and embedding cache
(`wikidataRetriever.AstraDBConnect`, `wikidataCache`)

Embedding vectors are lists of floats; the claims never compute with their
entries, so the entries are carried as `Int` stand-ins.  The Python values
that flow through the cache column are `None`, a `str`, or a `list`. -/

inductive PyVal where
  | vnone
  | vstr (s : String)
  | vlist (xs : List Int)
deriving DecidableEq, Repr

/-- Stand-in for `base64.b64encode(np.array(value, dtype=np.float32).tobytes())`:
the claims only distinguish a stored string from SQL `NULL`, so any
injective rendering of the list represents the encoding. -/
def base64OfFloat32 (xs : List Int) : String :=
  toString xs

/-- Stand-in for `json.dumps(vector, separators=(',', ':'))` — again only
its being a `str` (not a `list`) matters to the claims. -/
def jsonDumps (xs : List Int) : String :=
  toString xs

/-- `EmbeddingType.process_bind_param`: a `list` is converted to its Base64
string; any other value — including the `str` that `push_batch` passes —
binds as `None`, i.e. SQL `NULL`. -/
def process_bind_param : PyVal → PyVal
  | .vlist xs => .vstr (base64OfFloat32 xs)
  | _ => .vnone

/-- The cache table of `wikidataCache.create_cache_embedding_model`: rows of
`(id, embedding)` where the embedding column may be `NULL`. -/
abbrev EmbedCache := List (String × PyVal)

/-- `CacheEmbeddings.add_bulk_cache`: each row's embedding is passed through
`process_bind_param`, then inserted with `ON CONFLICT(id) DO NOTHING` (rows
processed in order). -/
def add_bulk_cache (cache : EmbedCache) (rows : List (String × PyVal)) :
    EmbedCache :=
  rows.foldl (fun c r =>
    if alistMem c r.1 then c else c ++ [(r.1, process_bind_param r.2)]) cache

/-- `CacheEmbeddings.get_cache`: `None` when no row exists, and the
embedding column otherwise — which is again Python `None` when the column is
`NULL` (a stored Base64 string decodes back to a float list; the decoded
list is represented by the stored value, callers only compare the result
against `None`). -/
def get_cache (cache : EmbedCache) (id : String) : PyVal :=
  match alistFind cache id with
  | none => .vnone
  | some .vnone => .vnone
  | some v => v

/-- A document as assembled by `AstraDBConnect.add_document`. -/
structure Doc where
  id : String
  content : String
  metadata : List (String × String)
deriving DecidableEq, Repr

/-- The mutable state of an `AstraDBConnect` with a configured embedding
cache (`cache_on = True`, as in the ingestion entry point): the local
document queue, the cache table, and the documents the remote collection has
accepted through `insert_many`. -/
structure AstraState where
  doc_batch : List Doc
  cache : EmbedCache
  index : List Doc
deriving DecidableEq, Repr

/-- The fixed collaborators of an `AstraDBConnect`: the batch size and the
embedding model (`embed_documents` applied per document). -/
structure AstraConfig where
  batch_size : Nat
  embed : String → List Int

/-- `AstraDBConnect.push_batch`.  `insertRaises` models
`graph_store.insert_many` raising; the `except` clause only prints, so the
batch is dropped from the queue, the cache write still happens, and the call
returns `True`.  The pop loop takes up to `batch_size` documents off the
queue and keeps those without a cache entry (`_get_cached_embedding`
returning `None`). -/
def push_batch (cfg : AstraConfig) (st : AstraState) (insertRaises : Bool) :
    Bool × AstraState :=
  if st.doc_batch.isEmpty then (false, st)
  else
    let taken := st.doc_batch.take cfg.batch_size
    let rest := st.doc_batch.drop cfg.batch_size
    let docs := taken.filter (fun d => get_cache st.cache d.id = .vnone)
    if docs.length = 0 then (false, { st with doc_batch := rest })
    else
      let index2 := if insertRaises then st.index else st.index ++ docs
      let cache2 := add_bulk_cache st.cache
        (docs.map (fun d => (d.id, PyVal.vstr (jsonDumps (cfg.embed d.content)))))
      (true, ⟨rest, cache2, index2⟩)

/-- `AstraDBConnect.add_document`: enqueue, and push when the queue has
reached `batch_size`. -/
def add_document (cfg : AstraConfig) (st : AstraState) (doc : Doc)
    (insertRaises : Bool) : AstraState :=
  let st2 := { st with doc_batch := st.doc_batch ++ [doc] }
  if cfg.batch_size ≤ st2.doc_batch.length then (push_batch cfg st2 insertRaises).2
  else st2

/-- The operations a caller can perform on an `AstraDBConnect` after some
point in time, each tagged with whether the remote insert raises. -/
inductive AstraOp where
  | add (doc : Doc) (insertRaises : Bool)
  | push (insertRaises : Bool)
deriving DecidableEq, Repr

def applyAstraOp (cfg : AstraConfig) (st : AstraState) : AstraOp → AstraState
  | .add doc insertRaises => add_document cfg st doc insertRaises
  | .push insertRaises => (push_batch cfg st insertRaises).2

def applyAstraOps (cfg : AstraConfig) (st : AstraState) (ops : List AstraOp) :
    AstraState :=
  ops.foldl (applyAstraOp cfg) st

/-! ## Concrete instances used to evaluate the model

A character-level tokenizer (one token per character, spans `(i, i+1)`), an
adversarial but span-valid tokenizer, and small stores, entities, claims and
batch-writer states on which the claims are tested. -/

/-- The tokenizer that emits one token per character. -/
def charTok : Tokenizer := fun s =>
  (List.range s.length).map (fun i => (i, i + 1))

/-- A tokenizer with a valid offset mapping (every span lies inside its
input) that tokenizes the string `"a,"` into three one-character tokens. -/
def advTok : Tokenizer := fun s =>
  if s = "a, b" then [(0, 1), (1, 2)]
  else if s = "a," then [(0, 1), (0, 1), (0, 1)]
  else charTok s

/-- An empty LangStore. -/
def emptyStore : String → Option EntityRec := fun _ => none

/-- A LangStore holding the given rows. -/
def mkStore (rows : List (String × EntityRec)) : String → Option EntityRec :=
  fun k => alistFind rows k

/-- A `WikidataTextifier()` with default flags, English, over the given
LangStore. -/
def tfWith (store : String → Option EntityRec) : Textifier :=
  ⟨false, false, false, false, "en", store⟩

def tfEn : Textifier := tfWith emptyStore

/-- An entity with label `a`, description `b`, and no aliases or claims. -/
def entityQ1 : Entity := ⟨"Q1", "a", "b", [], []⟩

/-- A claim whose mainsnak is a string value of the given rank, with no
qualifiers. -/
def strClaim (v rank : String) : Claim :=
  ⟨⟨"value", "string", some (.str v)⟩, [], rank⟩

def store4 : String → Option EntityRec :=
  mkStore [("P1", ⟨"p", "", []⟩), ("P2", ⟨"q", "", []⟩)]

def tf4 : Textifier := tfWith store4

/-- Label `a`, description `b`, two one-claim properties rendering to
`"\n- p: \"v\""` and `"\n- q: \"w\""`. -/
def entity4 : Entity :=
  ⟨"Q1", "a", "b", [],
   [("P1", [strClaim "v" "normal"]), ("P2", [strClaim "w" "normal"])]⟩

def tf5 : Textifier := tfWith (mkStore [("P31", ⟨"instance of", "", []⟩)])

/-- A `normal` claim with value `x` next to a `preferred` claim whose value
renders to the empty string. -/
def claims5 : List (String × List Claim) :=
  [("P31", [strClaim "x" "normal", strClaim "" "preferred"])]

/-- A dump item carrying one `statement` of rank `normal` and one of rank
`deprecated` on P31. -/
def item5 : DumpItem :=
  ⟨"Q42", [("en", "x")], [("en", "y")], [], some ["enwiki"],
   [("P31", [⟨"statement", "normal", some ⟨"value", "string", some (.str "x")⟩, []⟩,
             ⟨"statement", "deprecated", some ⟨"value", "string", some (.str "z")⟩, []⟩])]⟩

/-- A monolingual-text snak in German. -/
def monoSnakDe : Snak := ⟨"value", "monolingualtext", some (.mono "de" "Hallo")⟩

def tf7 : Textifier := tfWith (mkStore [("P569", ⟨"date of birth", "", []⟩)])

/-- The S3 time snak: 1879-03-14, day precision, Julian calendar model
Q1985786. -/
def timeSnak7 : Snak :=
  ⟨"value", "time",
   some (.time "+1879-03-14T00:00:00Z" 11 "http://www.wikidata.org/entity/Q1985786")⟩

def claims7 : List (String × List Claim) :=
  [("P569", [⟨timeSnak7, [], "normal"⟩])]

/-- The rendered English fragment for the S3 claim. -/
def fragment7 : String := String.join (properties_to_text tf7 claims7)

/-- The S2 entity: `{id:"Q2", labels:{}, descriptions:{}, sitelinks:{}}`. -/
def q2Item : DumpItem := ⟨"Q2", [], [], [], some [], []⟩

def cfg10 : AstraConfig := ⟨2, fun _ => [7]⟩

def doc1 : Doc := ⟨"D1", "text1", []⟩

def doc2 : Doc := ⟨"D2", "text2", []⟩

/-- A fresh batch writer holding two queued documents. -/
def st10 : AstraState := ⟨[doc1, doc2], [], []⟩

/-- A claim whose value is the `wikibase-item` `Q999999`, absent from every
store used here. -/
def missClaim : Claim :=
  ⟨⟨"value", "wikibase-item", some (.entityid "Q999999")⟩, [], "normal"⟩

/-! ## Theorems -/

/-- Characterisation of one `add_bulk_ids` call at one key: a fresh key gets
the OR of the matching rows' flags; an existing record gets each flag ORed
with the matching rows' flags. -/
theorem add_bulk_ids_lookup (rows : List IdRow) (m : IdMap) (k : String) :
    add_bulk_ids m rows k =
      match m k with
      | none =>
        if rows.any (fun r => r.id == k) then
          some ⟨rows.any (fun r => r.id == k && r.in_wikipedia),
                rows.any (fun r => r.id == k && r.is_property)⟩
        else none
      | some old =>
        some ⟨old.in_wikipedia || rows.any (fun r => r.id == k && r.in_wikipedia),
              old.is_property || rows.any (fun r => r.id == k && r.is_property)⟩ := by
  induction rows generalizing m with
  | nil => cases h : m k <;> simp [add_bulk_ids, h]
  | cons r rs ih =>
    have step : add_bulk_ids m (r :: rs) = add_bulk_ids (upsertId m r) rs := rfl
    rw [step, ih (upsertId m r)]
    by_cases hk : r.id = k
    · subst hk
      cases h : m r.id with
      | none =>
        simp [upsertId, h]
      | some old =>
        simp [upsertId, h, Bool.or_assoc]
    · have hne : (r.id == k) = false := by
        simp [hk]
      have hu : upsertId m r k = m k := by
        simp [upsertId]
        intro hkr
        exact absurd hkr.symm hk
      rw [hu]
      cases h : m k <;> simp [h, hne]

/-- A sequence of bulk calls equals one bulk call on the concatenation. -/
theorem add_bulk_ids_seq_eq_flatten (batches : List (List IdRow)) (m : IdMap) :
    add_bulk_ids_seq m batches = add_bulk_ids m batches.flatten := by
  induction batches generalizing m with
  | nil => simp [add_bulk_ids_seq, add_bulk_ids]
  | cons b bs ih =>
    have h1 : add_bulk_ids_seq m (b :: bs) = add_bulk_ids_seq (add_bulk_ids m b) bs := rfl
    rw [h1, ih]
    simp [add_bulk_ids, List.foldl_append]

/-- C1: after any sequence of `WikidataID.add_bulk_ids` calls starting from
an empty table, a key is stored iff some upserted row carried it, and each
stored flag is exactly the OR of all observed values for that key; moreover
further upserts never flip a stored `true` flag back to `false`. -/
theorem add_bulk_ids_monotone_or (batches : List (List IdRow)) (k : String) :
    (add_bulk_ids_seq emptyIdMap batches k =
      if batches.flatten.any (fun r => r.id == k) then
        some ⟨batches.flatten.any (fun r => r.id == k && r.in_wikipedia),
              batches.flatten.any (fun r => r.id == k && r.is_property)⟩
      else none)
    ∧ ∀ (more : List (List IdRow)) (rec : IdRec),
        add_bulk_ids_seq emptyIdMap batches k = some rec →
        ∃ rec2 : IdRec,
          add_bulk_ids_seq emptyIdMap (batches ++ more) k = some rec2 ∧
            (rec.in_wikipedia = true → rec2.in_wikipedia = true) ∧
            (rec.is_property = true → rec2.is_property = true) := by
  have key : ∀ bs : List (List IdRow),
      add_bulk_ids_seq emptyIdMap bs k =
        if bs.flatten.any (fun r => r.id == k) then
          some ⟨bs.flatten.any (fun r => r.id == k && r.in_wikipedia),
                bs.flatten.any (fun r => r.id == k && r.is_property)⟩
        else none := by
    intro bs
    rw [add_bulk_ids_seq_eq_flatten, add_bulk_ids_lookup]
    rfl
  refine ⟨key batches, ?_⟩
  intro more rec h
  rw [key batches] at h
  rw [key (batches ++ more)]
  by_cases hmem : batches.flatten.any (fun r => r.id == k)
  · rw [if_pos hmem] at h
    have hrec : rec = ⟨batches.flatten.any (fun r => r.id == k && r.in_wikipedia),
                       batches.flatten.any (fun r => r.id == k && r.is_property)⟩ :=
      (Option.some_injective _ h).symm
    have hjoin : (batches ++ more).flatten = batches.flatten ++ more.flatten := by
      simp
    rw [hjoin]
    have hany : (batches.flatten ++ more.flatten).any (fun r => r.id == k) = true := by
      simp [List.any_append, hmem]
    rw [if_pos hany]
    refine ⟨_, rfl, ?_, ?_⟩ <;> subst hrec <;> simp only [List.any_append] <;>
      intro hflag <;> simp [hflag]
  · rw [if_neg hmem] at h
    exact absurd h (by simp)

/-- Witness for C1 at a concrete run: upserting `("Q1", true, false)` and
then `("Q1", false, true)` keeps `in_wikipedia` true. -/
theorem add_bulk_ids_monotone_or_witness :
    ∃ rec2 : IdRec,
      add_bulk_ids_seq emptyIdMap ([[⟨"Q1", true, false⟩]] ++ [[⟨"Q1", false, true⟩]]) "Q1"
        = some rec2 ∧
        ((⟨true, false⟩ : IdRec).in_wikipedia = true → rec2.in_wikipedia = true) ∧
        ((⟨true, false⟩ : IdRec).is_property = true → rec2.is_property = true) :=
  (add_bulk_ids_monotone_or [[⟨"Q1", true, false⟩]] "Q1").2
    [[⟨"Q1", false, true⟩]] ⟨true, false⟩ (by decide)

/-- C2 (amended): when the full rendered text tokenizes to strictly fewer
than `max_length` tokens, `chunk_text` returns exactly one chunk equal to
the full text. -/
theorem chunk_text_single_chunk (tf : Textifier) (entity : Entity)
    (tok : Tokenizer) (maxLen : Nat)
    (h : (tok (entity_to_text tf entity)).length < maxLen) :
    chunk_text tf entity tok maxLen = [entity_to_text tf entity] := by
  unfold chunk_text
  simp only []
  rw [if_pos (show (tok (merge_entity_property_text tf (entityDescriptionText tf entity)
    (properties_to_text tf entity.claims))).length < maxLen from h)]
  rfl

/-- Witness for C2 at a concrete input: five tokens against a budget of
six. -/
theorem chunk_text_single_chunk_witness :
    (charTok (entity_to_text tfEn entityQ1)).length < 6 ∧
      chunk_text tfEn entityQ1 charTok 6 = [entity_to_text tfEn entityQ1] :=
  ⟨by decide, chunk_text_single_chunk tfEn entityQ1 charTok 6 (by decide)⟩

/-- Counterexample to C2 as stated: an entity whose full text tokenizes to
exactly `max_length` tokens (five), for which `chunk_text` returns no chunk
at all rather than one chunk equal to the full text. -/
theorem chunk_text_at_exact_budget_not_single :
    (charTok (entity_to_text tfEn entityQ1)).length = 5 ∧
      chunk_text tfEn entityQ1 charTok 5 = [] ∧
      chunk_text tfEn entityQ1 charTok 5 ≠ [entity_to_text tfEn entityQ1] := by
  refine ⟨by decide, by decide, by decide⟩

/-- C6 (amended): for a `monolingualtext` value snak, `mainsnak_to_value`
returns the inner `text` field whatever the inner `language` is — a
wrong-language monolingual value is kept, not dropped. -/
theorem mono_value_ignores_language (tf : Textifier) (language t : String) :
    mainsnak_to_value tf ⟨"value", "monolingualtext", some (.mono language t)⟩
      = some t := by
  rfl

/-- Counterexample to C6 as stated: a German monolingual snak under the
English textifier renders as `"Hallo"`, not as the empty string. -/
theorem mono_value_wrong_language_not_dropped :
    tfEn.language = "en" ∧
      mainsnak_to_value tfEn monoSnakDe = some "Hallo" ∧
      mainsnak_to_value tfEn monoSnakDe ≠ some "" := by
  refine ⟨by decide, by decide, by decide⟩

/-- C9 (amended): stage A appends no id row for the S2 entity `Q2` (its
`is_in_wikipedia` predicate fails), so the IdStore stays empty at `Q2`, and
stage B therefore never inserts it into the LangStore. -/
theorem q2_writes_nothing :
    is_in_wikipedia q2Item "en" = false ∧
      save_ids_rows q2Item "en" = [] ∧
      add_bulk_ids emptyIdMap (save_ids_rows q2Item "en") "Q2" = none ∧
      stage_b_inserts (add_bulk_ids emptyIdMap (save_ids_rows q2Item "en")) q2Item
        = false := by
  refine ⟨by decide, by decide, by decide, by decide⟩

/-- Counterexample to C9 as stated: processing `Q2` through stage A does not
write the IdRecord `("Q2", false, false)` — it writes nothing. -/
theorem q2_idrecord_not_written :
    ¬ add_bulk_ids emptyIdMap (save_ids_rows q2Item "en") "Q2"
        = some ⟨false, false⟩ := by
  decide

/-- C7 (amended): the S3 time snak carries the Julian calendar model
`Q1985786`, so `time_to_text` applies the ten-day ordinal shift and the
English fragment for `P569` ("date of birth") contains `"date of birth"`
and `"24 Mar 1879"`. -/
theorem s3_fragment_contains_shifted_date :
    strContains fragment7 "date of birth" = true ∧
      strContains fragment7 "24 Mar 1879" = true := by
  refine ⟨by decide, by decide⟩

/-- Counterexample to C7 as stated: the rendered value is `"24 Mar 1879"`,
and the fragment does not contain `"14 Mar 1879"`. -/
theorem s3_fragment_without_unshifted_date :
    time_to_text enLang "+1879-03-14T00:00:00Z" 11
        "http://www.wikidata.org/entity/Q1985786" = some "24 Mar 1879" ∧
      strContains fragment7 "14 Mar 1879" = false := by
  refine ⟨by decide, by decide⟩

/-- C10: a `push_batch` whose `insert_many` raises swallows the exception
and returns `True` without touching the index, and writes cache rows for the
batch — but the rows carry a `NULL` embedding (the JSON string is discarded
by `process_bind_param`), so `get_cache` still answers `None` and re-adding
the document makes a later `push_batch` re-embed it and re-send it to the
index, contradicting the intended cache-based dedup. -/
theorem push_batch_null_cache_resends :
    (push_batch cfg10 st10 true).1 = true ∧
      (push_batch cfg10 st10 true).2.index = [] ∧
      alistMem (push_batch cfg10 st10 true).2.cache "D1" = true ∧
      get_cache (push_batch cfg10 st10 true).2.cache "D1" = .vnone ∧
      (applyAstraOps cfg10 (push_batch cfg10 st10 true).2
        [.add doc1 false, .push false]).index = [doc1] := by
  refine ⟨by decide, by decide, by decide, by decide, by decide⟩

/-- The character tokenizer emits one token per character. -/
theorem charTok_length (s : String) : (charTok s).length = s.length := by
  simp [charTok]

/-- In-bounds spans of the character tokenizer. -/
theorem charTok_getD (s : String) (i : Nat) (h : i < s.length) :
    (charTok s).getD i (0, 0) = (i, i + 1) := by
  rw [charTok, List.getD_eq_getElem?_getD]
  rw [List.getElem?_map, List.getElem?_range h]
  rfl

/-- Every span end of the character tokenizer read at index `i` is at most
`i + 1`, in or out of bounds. -/
theorem charTok_getD_snd_le (s : String) (i n : Nat) (h : i + 1 ≤ n) :
    ((charTok s).getD i (0, 0)).2 ≤ n := by
  by_cases hi : i < s.length
  · rw [charTok_getD s i hi]
    exact h
  · rw [List.getD_eq_default]
    · exact Nat.zero_le n
    · rw [charTok_length]
      omega

/-- A character slice ending at character `b` has at most `b` characters,
hence at most `b` tokens under the character tokenizer. -/
theorem charSlice_tokens_le (s : String) (a b n : Nat) (hb : b ≤ n) :
    (charTok (charSlice s a b)).length ≤ n := by
  rw [charTok_length]
  show (((s.toList.drop a).take (b - a)).asString).length ≤ n
  have hlen : (((s.toList.drop a).take (b - a)).asString).length
      = ((s.toList.drop a).take (b - a)).length := rfl
  rw [hlen]
  calc ((s.toList.drop a).take (b - a)).length ≤ b - a := by
        exact le_trans (List.length_take_le _ _) (le_refl _)
    _ ≤ b := Nat.sub_le b a
    _ ≤ n := hb

/-- A truncated chunk respects the budget under the character tokenizer. -/
theorem truncChunk_budget (t : String) (maxLen : Nat) (h0 : 0 < maxLen) :
    (charTok (truncChunk charTok maxLen t)).length ≤ maxLen := by
  unfold truncChunk
  apply charSlice_tokens_le
  apply charTok_getD_snd_le
  omega

/-- A non-truncated tail chunk respects the budget under the character
tokenizer when its source text does. -/
theorem fullChunk_budget (t : String) (maxLen : Nat)
    (h : (charTok t).length < maxLen) :
    (charTok (fullChunk charTok t)).length ≤ maxLen := by
  unfold fullChunk
  apply charSlice_tokens_le
  apply charTok_getD_snd_le
  rw [charTok_length] at h ⊢
  omega

/-- Every chunk emitted by the claim-accumulation loop respects the budget
under the character tokenizer. -/
theorem chunkLoop_budget (tf : Textifier) (maxLen : Nat) (desc : String)
    (h0 : 0 < maxLen) :
    ∀ (props cc : List String), ∀ c ∈ chunkLoop tf charTok maxLen desc cc props,
      (charTok c).length ≤ maxLen := by
  intro props
  induction props with
  | nil =>
    intro cc c hc
    unfold chunkLoop at hc
    by_cases hcc : cc.length > 0
    · rw [if_pos hcc] at hc
      by_cases hb : maxLen ≤
          (charTok (merge_entity_property_text tf desc cc)).length
      · rw [if_pos hb] at hc
        rw [List.mem_singleton] at hc
        subst hc
        exact truncChunk_budget _ _ h0
      · rw [if_neg hb] at hc
        rw [List.mem_singleton] at hc
        subst hc
        exact fullChunk_budget _ _ (by omega)
    · rw [if_neg hcc] at hc
      exact absurd hc (List.not_mem_nil c)
  | cons claim rest ih =>
    intro cc c hc
    unfold chunkLoop at hc
    by_cases hb : maxLen ≤
        (charTok (merge_entity_property_text tf desc (cc ++ [claim]))).length
    · rw [if_pos hb] at hc
      rcases List.mem_cons.mp hc with hc | hc
      · subst hc
        exact truncChunk_budget _ _ h0
      · exact ih _ c hc
    · rw [if_neg hb] at hc
      exact ih _ c hc

/-- C3 (amended): under a character-level tokenizer (one token per
character, spans `(i, i+1)`), every chunk returned by `chunk_text`
tokenizes to at most `max_length` tokens, for any entity and any positive
budget. -/
theorem chunk_text_budget_charTok (tf : Textifier) (entity : Entity)
    (maxLen : Nat) (h0 : 0 < maxLen) :
    ∀ c ∈ chunk_text tf entity charTok maxLen, (charTok c).length ≤ maxLen := by
  intro c hc
  unfold chunk_text at hc
  by_cases h1 : (charTok (merge_entity_property_text tf
      (entityDescriptionText tf entity)
      (properties_to_text tf entity.claims))).length < maxLen
  · rw [if_pos h1] at hc
    rw [List.mem_singleton] at hc
    subst hc
    omega
  · rw [if_neg h1] at hc
    by_cases h2 : maxLen ≤ (charTok (entityDescriptionText tf entity)).length
    · rw [if_pos h2] at hc
      rw [List.mem_singleton] at hc
      subst hc
      apply charSlice_tokens_le
      apply charTok_getD_snd_le
      omega
    · rw [if_neg h2] at hc
      exact chunkLoop_budget tf maxLen (entityDescriptionText tf entity) h0 _ _ c hc

/-- Witness for C3 (amended) at a concrete input: the single chunk `"a,"`
of a truncated description stays within the budget of two. -/
theorem chunk_text_budget_charTok_witness :
    (0 : Nat) < 2 ∧ (charTok "a,").length ≤ 2 :=
  ⟨by decide, chunk_text_budget_charTok tfEn entityQ1 2 (by decide) "a," (by decide)⟩

/-- Counterexample to C3 as stated: under `advTok` — whose offset mapping
assigns every token an in-bounds span of its input (see
`advTok_spans_valid`) — `chunk_text` returns the chunk `"a,"`, which
tokenizes to three tokens, exceeding the budget of two. -/
theorem chunk_text_budget_violated_adversarial :
    chunk_text tfEn entityQ1 advTok 2 = ["a,"] ∧ 2 < (advTok "a,").length := by
  refine ⟨by decide, by decide⟩

/-- The adversarial tokenizer satisfies the claim's hypothesis: every token
is assigned a `(start_char, end_char)` span lying inside its input. -/
theorem advTok_spans_valid (s : String) :
    ∀ p ∈ advTok s, p.1 ≤ p.2 ∧ p.2 ≤ s.length := by
  intro p hp
  unfold advTok at hp
  by_cases h1 : s = "a, b"
  · subst h1
    rw [if_pos rfl] at hp
    simp only [List.mem_cons, List.mem_singleton, List.not_mem_nil, or_false] at hp
    rcases hp with rfl | rfl <;> decide
  · rw [if_neg h1] at hp
    by_cases h2 : s = "a,"
    · subst h2
      rw [if_pos rfl] at hp
      simp only [List.mem_cons, List.mem_singleton, List.not_mem_nil, or_false] at hp
      rcases hp with rfl | rfl | rfl <;> decide
    · rw [if_neg h2] at hp
      simp only [charTok, List.mem_map, List.mem_range] at hp
      obtain ⟨i, hi, rfl⟩ := hp
      omega

/-- C4 (amended): when including the next property makes the token count
reach `max_length`, the loop emits the chunk that is the
first-`max_length`-token prefix of the text built from the header, the
accumulated properties **and the current property** (so a prefix of the
current property can appear in it); the current property then starts the
next accumulation when something was already accumulated, and the
accumulation restarts empty when the current property was alone. -/
theorem chunkLoop_crossing (tf : Textifier) (tok : Tokenizer) (maxLen : Nat)
    (desc claim : String) (cc rest : List String)
    (hcross : maxLen ≤
      (tok (merge_entity_property_text tf desc (cc ++ [claim]))).length) :
    (cc ≠ [] →
      chunkLoop tf tok maxLen desc cc (claim :: rest) =
        truncChunk tok maxLen (merge_entity_property_text tf desc (cc ++ [claim])) ::
          chunkLoop tf tok maxLen desc [claim] rest)
    ∧ (cc = [] →
      chunkLoop tf tok maxLen desc cc (claim :: rest) =
        truncChunk tok maxLen (merge_entity_property_text tf desc [claim]) ::
          chunkLoop tf tok maxLen desc [] rest) := by
  constructor
  · intro hcc
    have hlen : ¬ cc.length = 0 := by
      simpa [List.length_eq_zero] using hcc
    simp only [chunkLoop]
    rw [if_pos hcross, if_neg hlen]
  · intro hcc
    subst hcc
    simp only [chunkLoop]
    rw [if_pos (show maxLen ≤ (tok (merge_entity_property_text tf desc
      ([] ++ [claim]))).length from hcross)]
    simp

/-- Witness for C4 (amended) at a concrete input: the header `"a, b"` with
one accumulated property crossing the budget of forty on the next one. -/
theorem chunkLoop_crossing_witness :
    chunkLoop tf4 charTok 40 "a, b" ["\n- p: \"v\""] ["\n- q: \"w\""] =
      truncChunk charTok 40
          (merge_entity_property_text tf4 "a, b" (["\n- p: \"v\""] ++ ["\n- q: \"w\""])) ::
        chunkLoop tf4 charTok 40 "a, b" ["\n- q: \"w\""] [] :=
  (chunkLoop_crossing tf4 charTok 40 "a, b" "\n- q: \"w\"" ["\n- p: \"v\""] []
    (by decide)).1 (by decide)

/-- Counterexample to C4 as stated: with one property already accumulated,
the chunk emitted on crossing is not the header plus the previous
accumulation — it additionally contains the first characters `"\n- q:"` of
the current property, which also starts the next chunk. -/
theorem chunk_crossing_includes_current_property :
    chunk_text tf4 entity4 charTok 40 =
      ["a, b. Attributes include: \n- p: \"v\"\n- q:",
       "a, b. Attributes include: \n- q: \"w\""] ∧
      (chunk_text tf4 entity4 charTok 40).headD "" ≠
        merge_entity_property_text tf4 (entityDescriptionText tf4 entity4)
          ["\n- p: \"v\""] ∧
      strContains ((chunk_text tf4 entity4 charTok 40).headD "") "\n- q:" = true := by
  refine ⟨by decide, by decide, by decide⟩

/-- Once the `rank_preferred_found` flag is set, the loop appends exactly
the truthy preferred claims' values. -/
theorem pData_go_preferred (tf : Textifier) (cs : List Claim) (acc : List String) :
    (cs.foldl (pDataStep tf) (true, acc)).2 =
      acc ++ (cs.filter (fun c => claimTruthy tf c && isPreferredRank c)).map
        (claimValueText tf) := by
  induction cs generalizing acc with
  | nil => simp
  | cons c cs ih =>
    by_cases ht : claimTruthy tf c
    · by_cases hp : isPreferredRank c
      · simp [pDataStep, ht, hp, ih]
      · simp [pDataStep, ht, hp, ih]
    · simp [pDataStep, ht, ih]

/-- Before the flag is set: if some remaining claim is truthy and preferred,
the final accumulation is exactly the truthy preferred values; otherwise it
is the accumulation extended by all truthy values. -/
theorem pData_go_unset (tf : Textifier) (cs : List Claim) (acc : List String) :
    (cs.foldl (pDataStep tf) (false, acc)).2 =
      if cs.any (fun c => claimTruthy tf c && isPreferredRank c) then
        (cs.filter (fun c => claimTruthy tf c && isPreferredRank c)).map
          (claimValueText tf)
      else acc ++ (cs.filter (fun c => claimTruthy tf c)).map (claimValueText tf) := by
  induction cs generalizing acc with
  | nil => simp
  | cons c cs ih =>
    by_cases ht : claimTruthy tf c
    · by_cases hp : isPreferredRank c
      · simp [pDataStep, ht, hp, pData_go_preferred]
      · simp [pDataStep, ht, hp, ih]
    · simp [pDataStep, ht, ih]

/-- C5 (amended): in `properties_to_text`, if at least one claim whose value
is truthy (non-null **and** non-empty) has rank `preferred`, exactly the
truthy preferred claims' values appear, in order; otherwise all truthy
values appear (after `_get_claims`, these are the `normal`-ranked ones).
`deprecated` claims are excluded beforehand by `WikidataEntity._get_claims`
and so never contribute a value. -/
theorem rank_selection (tf : Textifier) (cs : List Claim) :
    (pData tf cs =
      if cs.any (fun c => claimTruthy tf c && isPreferredRank c) then
        (cs.filter (fun c => claimTruthy tf c && isPreferredRank c)).map
          (claimValueText tf)
      else (cs.filter (fun c => claimTruthy tf c)).map (claimValueText tf))
    ∧ ∀ (item : DumpItem) (pid : String) (stored : List Claim) (c : Claim),
        (pid, stored) ∈ get_claims item → c ∈ stored → c.rank ≠ "deprecated" := by
  constructor
  · have h := pData_go_unset tf cs []
    simpa [pData] using h
  · intro item pid stored c hmem hc
    simp only [get_claims, List.mem_filterMap] at hmem
    obtain ⟨pc, _, hpc⟩ := hmem
    by_cases hlen :
        (pc.2.filterMap (fun c => if c.ctype = "statement" ∧ c.rank ≠ "deprecated"
          then some (⟨cleanMainsnak c.mainsnak, c.qualifiers, c.rank⟩ : Claim)
          else none)).length > 0
    · rw [if_pos hlen] at hpc
      have hstored : stored = pc.2.filterMap
          (fun c => if c.ctype = "statement" ∧ c.rank ≠ "deprecated"
            then some (⟨cleanMainsnak c.mainsnak, c.qualifiers, c.rank⟩ : Claim)
            else none) := by
        have hpair := Option.some_injective _ hpc
        have := congrArg Prod.snd hpair
        simpa using this.symm
      rw [hstored] at hc
      simp only [List.mem_filterMap] at hc
      obtain ⟨c0, _, hc0⟩ := hc
      by_cases hcond : c0.ctype = "statement" ∧ c0.rank ≠ "deprecated"
      · rw [if_pos hcond] at hc0
        have : c.rank = c0.rank := by
          cases hc0
          rfl
        rw [this]
        exact hcond.2
      · rw [if_neg hcond] at hc0
        exact absurd hc0 (by simp)
    · rw [if_neg hlen] at hpc
      exact absurd hpc (by simp)

/-- Witness for C5 at concrete inputs: a truthy `normal` claim next to an
empty-valued `preferred` claim yields exactly the `normal` value, and the
stored statement of `item5` is not `deprecated`. -/
theorem rank_selection_witness :
    pData tf5 [strClaim "x" "normal", strClaim "" "preferred"] =
      ([strClaim "x" "normal", strClaim "" "preferred"].filter
        (fun c => claimTruthy tf5 c)).map (claimValueText tf5) ∧
      (⟨⟨"value", "string", some (.str "x")⟩, [], "normal"⟩ : Claim).rank ≠
        "deprecated" :=
  ⟨by
    have h := (rank_selection tf5 [strClaim "x" "normal", strClaim "" "preferred"]).1
    rwa [if_neg (by decide)] at h,
   (rank_selection tf5 []).2 item5 "P31"
     [⟨⟨"value", "string", some (.str "x")⟩, [], "normal"⟩]
     ⟨⟨"value", "string", some (.str "x")⟩, [], "normal"⟩
     (by decide) (by decide)⟩

/-- Counterexample to C5 as stated: the `preferred` claim's value is
non-null (it is the empty string), yet the `normal` claim's value `"x"`
still appears in the rendered output — Python truthiness, not nullness,
gates the preferred-rank reset. -/
theorem preferred_empty_value_does_not_win :
    mainsnak_to_value tf5 (strClaim "" "preferred").mainsnak = some "" ∧
      (strClaim "" "preferred").rank = "preferred" ∧
      properties_to_text tf5 claims5 = ["\n- instance of: \"x\""] := by
  refine ⟨by decide, by decide, by decide⟩

/-- A claim whose value is falsy leaves the `p_data` loop state unchanged. -/
theorem pDataStep_falsy (tf : Textifier) (st : Bool × List String) (c : Claim)
    (h : claimTruthy tf c = false) : pDataStep tf st c = st := by
  simp [pDataStep, h]

/-- Dropping a falsy claim anywhere in the claim list leaves `p_data`
unchanged. -/
theorem pData_skip_falsy (tf : Textifier) (cs1 cs2 : List Claim) (c : Claim)
    (h : claimTruthy tf c = false) :
    pData tf (cs1 ++ c :: cs2) = pData tf (cs1 ++ cs2) := by
  unfold pData
  rw [List.foldl_append, List.foldl_append, List.foldl_cons,
    pDataStep_falsy tf _ c h]

/-- The property loop is the concatenation of the per-property lines. -/
theorem properties_to_text_eq_flatMap (tf : Textifier)
    (properties : List (String × List Claim)) :
    properties_to_text tf properties = properties.flatMap (propertyLine tf) := by
  suffices h : ∀ (l : List (String × List Claim)) (acc : List String),
      l.foldl (fun acc pc => acc ++ propertyLine tf pc) acc =
        acc ++ l.flatMap (propertyLine tf) by
    simpa using h properties []
  intro l
  induction l with
  | nil => simp
  | cons pc l ih =>
    intro acc
    simp [ih, List.append_assoc]

/-- C8: a `wikibase-item` value snak whose referenced id is absent from the
LangStore renders as `None`, and a claim whose value is `None` is the only
thing suppressed: deleting it from its property's claim list leaves the
whole rendered property text unchanged, so sibling claims still appear
under the property's label. -/
theorem lookup_miss_suppresses_exactly :
    (∀ (tf : Textifier) (id : String), tf.store id = none →
      mainsnak_to_value tf ⟨"value", "wikibase-item", some (.entityid id)⟩ = none)
    ∧ ∀ (tf : Textifier) (ps1 ps2 : List (String × List Claim)) (pid : String)
        (cs1 cs2 : List Claim) (c : Claim),
        mainsnak_to_value tf c.mainsnak = none →
        properties_to_text tf (ps1 ++ (pid, cs1 ++ c :: cs2) :: ps2) =
          properties_to_text tf (ps1 ++ (pid, cs1 ++ cs2) :: ps2) := by
  constructor
  · intro tf id h
    simp [mainsnak_to_value, h]
  · intro tf ps1 ps2 pid cs1 cs2 c h
    have hfalsy : claimTruthy tf c = false := by
      simp [claimTruthy, h, truthy]
    rw [properties_to_text_eq_flatMap, properties_to_text_eq_flatMap]
    rw [List.flatMap_append, List.flatMap_append, List.flatMap_cons, List.flatMap_cons]
    have hline : propertyLine tf (pid, cs1 ++ c :: cs2)
        = propertyLine tf (pid, cs1 ++ cs2) := by
      unfold propertyLine
      rw [show ((pid, cs1 ++ c :: cs2) : String × List Claim).2 = cs1 ++ c :: cs2 from rfl]
      rw [show ((pid, cs1 ++ cs2) : String × List Claim).2 = cs1 ++ cs2 from rfl]
      rw [pData_skip_falsy tf cs1 cs2 c hfalsy]
    rw [hline]

/-- Witness for C8 at concrete inputs: the unresolved item `Q999999` renders
as `None`, and deleting that claim does not change the rendered text — the
sibling value `"x"` still appears under the property's label. -/
theorem lookup_miss_suppresses_exactly_witness :
    mainsnak_to_value tf5 ⟨"value", "wikibase-item", some (.entityid "Q999999")⟩
        = none ∧
      properties_to_text tf5 ([] ++ ("P31", [strClaim "x" "normal"] ++
          missClaim :: []) :: []) =
        properties_to_text tf5 ([] ++ ("P31", [strClaim "x" "normal"] ++ []) :: []) :=
  ⟨lookup_miss_suppresses_exactly.1 tf5 "Q999999" (by decide),
   lookup_miss_suppresses_exactly.2 tf5 [] [] "P31" [strClaim "x" "normal"] []
     missClaim (by decide)⟩

end Wikidata
